import Mathlib

/-!
Verification of the statebacked client-js library against its
natural-language specification.

The development shallowly embeds the parts of the code the claims are
about:

* `ReconnectingWebSocket` (the realtime transport) as an explicit state
  machine `Transport` whose methods (`send`, `persistentSend`,
  `cancelPersistent`, `connect`, `addListener`, `removeListener`,
  `close`) and socket event handlers (`sockOpen`, `sockClose`,
  `sockMsg`) are translated line by line from the class body.
* the token cache of `StateBackedClient` (`tokenIsExpired`, `setToken`,
  `token`, `refreshToken` and the then/catch continuations of the
  in-flight refresh promise) as a state machine `TokenState`.
* `matchesState` together with `toStateValue` / `pathToStateValue` and
  the dot-splitting of state ids (JS `String.prototype.split(".")`).
* the per-subscription message handler installed by
  `machineInstances.subscribe`.

Machine integers do not occur; JS numbers used by the code here are
timestamps and counters, embedded as `Int` / `Nat`.
-/

namespace StateBacked

/-! ## ReconnectingWebSocket (realtime transport)

The TS class has fields `ws` (the currently open socket, assigned in
`onopen`, cleared in `onclose` and `close`), `listeners`,
`state : "idle" | "connecting" | "closed"`, `msgQueue` and
`persistentMsgs`.  We model outgoing messages by an arbitrary type `Out`
with decidable equality (JS compares by object identity; distinct
message values stand for distinct objects) and listeners by an abstract
type `L` of listener identities.  `sent` is the trace of
`ws.send(JSON.stringify(msg))` calls, i.e. the wire output, and
`connectCount` counts `new this.WS(this.url)` socket constructions
(connection attempts).  `sockAlive`/`sockOpened` track whether a
constructed socket exists whose `close` event has not fired yet and
whether its `open` event has fired. -/

inductive ConnState where
  | idle
  | connecting
  | closed
deriving DecidableEq, Repr

structure Transport (Out L : Type) where
  connState : ConnState
  wsAttached : Bool
  sockAlive : Bool
  sockOpened : Bool
  listeners : List L
  msgQueue : List Out
  persistentMsgs : List Out
  sent : List Out
  connectCount : Nat
deriving DecidableEq, Repr

namespace Transport

variable {Out L : Type}

/-- Initial field values of a fresh `ReconnectingWebSocket`:
`state = "closed"`, no socket, empty listener list and queues. -/
def init : Transport Out L :=
  { connState := .closed
    wsAttached := false
    sockAlive := false
    sockOpened := false
    listeners := []
    msgQueue := []
    persistentMsgs := []
    sent := []
    connectCount := 0 }

/-- `send(msg)`: if `this.ws?.readyState !== this.WS.OPEN` push onto
`msgQueue` and return, otherwise `this.ws.send(JSON.stringify(msg))`.
`wsAttached` models `this.ws` being set, which the class only does for a
socket that reached `onopen` (and clears on close), so attachment
coincides with the `readyState === OPEN` test. -/
def send (s : Transport Out L) (m : Out) : Transport Out L :=
  if s.wsAttached then { s with sent := s.sent ++ [m] }
  else { s with msgQueue := s.msgQueue ++ [m] }

/-- `persistentSend(msg)`: push onto `persistentMsgs`, then `send(msg)`.
The returned cancel closure is modelled by `cancelPersistent`. -/
def persistentSend (s : Transport Out L) [DecidableEq Out] (m : Out) : Transport Out L :=
  send { s with persistentMsgs := s.persistentMsgs ++ [m] } m

/-- The cancel closure returned by `persistentSend`:
`this.persistentMsgs = this.persistentMsgs.filter((m) => m !== msg)`. -/
def cancelPersistent (s : Transport Out L) [DecidableEq Out] (m : Out) : Transport Out L :=
  { s with persistentMsgs := s.persistentMsgs.filter (fun m2 => m2 ≠ m) }

/-- `connect()`: early-return when `state` is `"connecting"` or
`"closed"`; otherwise set `state = "connecting"` and construct a new
socket (`new this.WS(this.url)`), installing its event handlers. -/
def connect (s : Transport Out L) : Transport Out L :=
  if s.connState = .connecting ∨ s.connState = .closed then s
  else
    { s with
      connState := .connecting
      sockAlive := true
      sockOpened := false
      connectCount := s.connectCount + 1 }

/-- The `ws.onopen` handler: `state = "idle"`, `this.ws = ws`, write
every element of `persistentMsgs.concat(msgQueue)` to the socket, then
empty `msgQueue` (`splice(0, length)`).  The `onConnect` callback (ping
interval setup) has no effect on the fields modelled here. -/
def sockOpen (s : Transport Out L) : Transport Out L :=
  { s with
    connState := .idle
    wsAttached := true
    sockOpened := true
    sent := s.sent ++ (s.persistentMsgs ++ s.msgQueue)
    msgQueue := [] }

/-- The `ws.onclose` handler: `this.ws = undefined`, `onDisconnect?.()`
(no modelled effect), then `this.connect()`. -/
def sockClose (s : Transport Out L) : Transport Out L :=
  connect { s with wsAttached := false, sockAlive := false }

/-- `close()`: `state = "closed"`, `this.ws?.close()`,
`this.ws = undefined`.  Note that neither `msgQueue` nor
`persistentMsgs` is touched. -/
def close (s : Transport Out L) : Transport Out L :=
  { s with connState := .closed, wsAttached := false }

/-- `addListener(listener)`: if `state === "closed"` then
`state = "idle"; connect()`, and in every case push the listener. -/
def addListener (s : Transport Out L) (l : L) : Transport Out L :=
  let s1 := if s.connState = .closed then connect { s with connState := .idle } else s
  { s1 with listeners := s1.listeners ++ [l] }

/-- `removeListener(listener)`: filter the listener out; if the listener
list became empty, `close()`. -/
def removeListener (s : Transport Out L) [DecidableEq L] (l : L) : Transport Out L :=
  let s1 := { s with listeners := s.listeners.filter (fun l2 => l2 ≠ l) }
  if s1.listeners = [] then s1.close else s1

/-- The loop body of `ws.onmessage`: invoke the listeners in order; a
listener that throws aborts the loop (the exception is caught by the
surrounding `try`).  `act l m = true` means listener `l` returns
normally on frame `m`; the result is the list of listeners that were
invoked with the frame. -/
def deliverFrom {In : Type} (act : L → In → Bool) (m : In) : List L → List L
  | [] => []
  | l :: rest => if act l m then l :: deliverFrom act m rest else [l]

/-- The `ws.onmessage` handler: `JSON.parse` the event data (a parse
failure is swallowed and nothing is delivered), then run the listener
loop inside `try { ... } catch (_) { /* swallow */ }`.  No transport
field is mutated, so the handler returns the state unchanged together
with the listeners that received the frame. -/
def sockMsg {In : Type} (s : Transport Out L) (act : L → In → Bool)
    (parsed : Option In) : Transport Out L × List L :=
  match parsed with
  | none => (s, [])
  | some m => (s, deliverFrom act m s.listeners)

end Transport

/-! ## matchesState and friends

`StateValue` is `string | { [key: string]: StateValue }`; we embed JS
objects as association lists (JS object literals have distinct keys;
`key in obj` and `obj[key]` are first-match lookup on the embedding).
A state descriptor may additionally be an array of path segments. -/

inductive SV where
  | str (s : String)
  | obj (fields : List (String × SV))

inductive StateDescr where
  | val (v : SV)
  | path (segs : List String)

/-- JS `stateValue.split(".")` (split on every dot, keeping empty
pieces: `"" ↦ [""]`, `"a..b" ↦ ["a", "", "b"]`), accumulator form over
the character list. -/
def splitDotsAux : List Char → List Char → List (List Char)
  | acc, [] => [acc.reverse]
  | acc, c :: rest =>
    if c = '.' then acc.reverse :: splitDotsAux [] rest
    else splitDotsAux (c :: acc) rest

def splitDots (s : String) : List String :=
  (splitDotsAux [] s.toList).map String.mk

/-- `pathToStateValue(statePath)`: a single segment is returned as a
string; otherwise the loop builds the nested single-key object chain
`{p0: {p1: ... pn}}` (an empty path yields the empty object `{}`). -/
def pathToStateValue : List String → SV
  | [x] => .str x
  | [] => .obj []
  | x :: rest => .obj [(x, pathToStateValue rest)]

/-- `toStateValue(stateValue)`: arrays go through `pathToStateValue`,
non-strings are returned as-is, strings are split on `"."` and then go
through `pathToStateValue`. -/
def toStateValue : StateDescr → SV
  | .path segs => pathToStateValue segs
  | .val (.obj f) => .obj f
  | .val (.str s) => pathToStateValue (splitDots s)

/-- JS property read `fields[key]` (first match). -/
def svLookup (k : String) : List (String × SV) → Option SV
  | [] => none
  | kv :: rest => if kv.1 = k then some kv.2 else svLookup k rest

/-- JS `key in obj`. -/
def svHasKey (k : String) (f : List (String × SV)) : Bool :=
  (svLookup k f).isSome

/-! Termination measure for the `matchesState` recursion.  The
recursive call `matchesState(parentStateValue[key], childStateValue[key])`
re-applies `toStateValue`, which can expand a dotted string into an
object chain, so the arguments are not structurally smaller.  We weigh
a string by three times its number of dot-separated parts and an object
by one plus the weighted sum of its fields; normalisation does not
increase the weight and taking a field strictly decreases it. -/

mutual
def svWeight : SV → Nat
  | .str s => 3 * (splitDots s).length
  | .obj f => 1 + svWeightFields f

def svWeightFields : List (String × SV) → Nat
  | [] => 0
  | kv :: rest => 1 + svWeight kv.2 + svWeightFields rest
end

theorem splitDotsAux_ne_nil (cs : List Char) : ∀ acc, splitDotsAux acc cs ≠ [] := by
  induction cs with
  | nil => intro acc; simp [splitDotsAux]
  | cons c rest ih =>
    intro acc
    simp only [splitDotsAux]
    split
    · simp
    · exact ih (c :: acc)

theorem splitDots_length_pos (s : String) : 0 < (splitDots s).length := by
  have h := splitDotsAux_ne_nil s.toList []

  simp only [splitDots, List.length_map]
  exact List.length_pos.mpr h

theorem splitDotsAux_no_dot (cs : List Char) :
    ∀ acc, '.' ∉ acc → ∀ l ∈ splitDotsAux acc cs, '.' ∉ l := by
  induction cs with
  | nil =>
    intro acc hacc l hl
    simp only [splitDotsAux, List.mem_singleton] at hl
    subst hl
    simpa using hacc
  | cons c rest ih =>
    intro acc hacc l hl
    simp only [splitDotsAux] at hl
    by_cases hc : c = '.'
    · rw [if_pos hc] at hl
      rcases List.mem_cons.mp hl with h | h
      · subst h; simpa using hacc
      · exact ih [] (by simp) l h
    · rw [if_neg hc] at hl
      refine ih (c :: acc) ?_ l hl
      intro hmem
      rcases List.mem_cons.mp hmem with h | h
      · exact hc h.symm
      · exact hacc h

theorem splitDotsAux_of_no_dot (cs : List Char) (hcs : '.' ∉ cs) (acc : List Char) :
    splitDotsAux acc cs = [acc.reverse ++ cs] := by
  induction cs generalizing acc with
  | nil => simp [splitDotsAux]
  | cons c rest ih =>
    have hc : c ≠ '.' := fun h => hcs (h ▸ List.mem_cons_self c rest)
    have hrest : '.' ∉ rest := fun h => hcs (List.mem_cons_of_mem c h)
    simp only [splitDotsAux, if_neg (fun h => hc h)]
    rw [ih hrest]
    simp

/-- A piece produced by `splitDots` contains no dot, so splitting it
again yields a single piece. -/
theorem splitDots_piece_singleton {s : String} {p : String}
    (hp : p ∈ splitDots s) : (splitDots p).length = 1 := by
  simp only [splitDots, List.mem_map] at hp
  obtain ⟨l, hl, rfl⟩ := hp
  have hnd : '.' ∉ l := splitDotsAux_no_dot s.toList [] (by simp) l hl
  have htl : (String.mk l).toList = l := rfl
  simp only [splitDots, htl, splitDotsAux_of_no_dot l hnd []]
  simp

/-- Weight of a chain built from dot-free segments. -/
theorem svWeight_pathToStateValue (parts : List String)
    (hne : parts ≠ [])
    (hsing : ∀ p ∈ parts, (splitDots p).length = 1) :
    svWeight (pathToStateValue parts) = 2 * parts.length + 1 := by
  induction parts with
  | nil => exact absurd rfl hne
  | cons x rest ih =>
    cases rest with
    | nil =>
      simp only [pathToStateValue, svWeight, List.length_singleton]
      have := hsing x (List.mem_cons_self x [])
      omega
    | cons y rest2 =>
      have hx : svWeight (pathToStateValue (x :: y :: rest2)) =
          2 + svWeight (pathToStateValue (y :: rest2)) := by
        simp only [pathToStateValue, svWeight, svWeightFields]
        omega
      rw [hx, ih (by simp) (fun p hp => hsing p (List.mem_cons_of_mem x hp))]
      simp only [List.length_cons]
      omega

/-- Normalising a value with `toStateValue` does not increase its
weight. -/
theorem svWeight_toStateValue_val (v : SV) :
    svWeight (toStateValue (.val v)) ≤ svWeight v := by
  cases v with
  | obj f => simp [toStateValue]
  | str s =>
    have hne : splitDots s ≠ [] :=
      List.length_pos.mp (splitDots_length_pos s)
    have h := svWeight_pathToStateValue (splitDots s) hne
      (fun p hp => splitDots_piece_singleton hp)
    simp only [toStateValue, svWeight] at h ⊢
    have := splitDots_length_pos s
    omega

theorem svWeight_mem_fields {k : String} {v : SV} {f : List (String × SV)}
    (h : (k, v) ∈ f) : svWeight v < svWeight (SV.obj f) := by
  induction f with
  | nil => simp at h
  | cons kv rest ih =>
    rcases List.mem_cons.mp h with h1 | h1
    · subst h1
      simp only [svWeight, svWeightFields]
      omega
    · have := ih h1
      simp only [svWeight, svWeightFields] at this ⊢
      omega

theorem svLookup_mem {k : String} {v : SV} {f : List (String × SV)}
    (h : svLookup k f = some v) : (k, v) ∈ f := by
  induction f with
  | nil => simp [svLookup] at h
  | cons kv rest ih =>
    simp only [svLookup] at h
    split at h
    · rename_i heq
      cases h
      subst heq
      rw [Prod.mk.eta]
      exact List.mem_cons_self kv rest
    · exact List.mem_cons_of_mem _ (ih h)

mutual
/-- The body of `matchesState` after both arguments were normalised
with `toStateValue`: a string child matches only an equal string
parent; a string parent matches an object child holding it as a key
(`parentStateValue in childStateValue`); two objects match when every
parent key exists in the child and the values match recursively via the
full `matchesState` (whose `undefined` checks are skipped because both
values are defined, and which re-applies `toStateValue`). -/
def msCore : SV → SV → Bool
  | .str ps, .str cs => ps = cs
  | .obj _, .str _ => false
  | .str ps, .obj cf => svHasKey ps cf
  | .obj pf, .obj cf => msFields pf cf
termination_by pv cv => svWeight pv + svWeight cv
decreasing_by
  simp only [svWeight]
  omega

/-- `Object.keys(parentStateValue).every(...)`: each parent key must be
present in the child and the corresponding values must match via the
full `matchesState` (JS `every` short-circuits like `&&`). -/
def msFields : List (String × SV) → List (String × SV) → Bool
  | [], _ => true
  | kv :: rest, cf =>
    (match h : svLookup kv.1 cf with
     | none => false
     | some cv2 => msCore (toStateValue (.val kv.2)) (toStateValue (.val cv2)))
    && msFields rest cf
termination_by pf cf => svWeightFields pf + svWeight (SV.obj cf)
decreasing_by
  · have h2 : svWeight cv2 < svWeight (SV.obj cf) :=
      svWeight_mem_fields (svLookup_mem h)
    have h3 := svWeight_toStateValue_val kv.2
    have h4 := svWeight_toStateValue_val cv2
    simp only [svWeightFields]
    omega
  · simp only [svWeightFields]
    omega
end

/-- `matchesState(parentStateId, childStateId)`: an `undefined` parent
matches exactly an `undefined` child; a defined parent matches an
`undefined` child; otherwise both sides are normalised with
`toStateValue` and compared by the body above. -/
def matchesState (parentStateId : Option StateDescr) (childStateId : Option SV) : Bool :=
  match parentStateId with
  | none => childStateId.isNone
  | some pd =>
    match childStateId with
    | none => true
    | some cd => msCore (toStateValue pd) (toStateValue (.val cd))

/-! ## Token cache of StateBackedClient

Fields: `latestToken`, `tokenExpiration` (milliseconds, parsed from the
JWT `exp` claim) and `inProgressTokenPromise`.  We give every refresh
promise a fresh numeric identity (`nextPromiseId`); callers that await
the same identity observe the same settlement.  `refreshCount` counts
invocations of `refreshToken()`, i.e. underlying token acquisitions
started. -/

structure TokenState where
  latestToken : Option String
  tokenExpiration : Option Int
  inProgress : Option Nat
  nextPromiseId : Nat
  refreshCount : Nat
deriving DecidableEq, Repr

namespace TokenState

/-- `tokenIsExpired()`:
`this.tokenExpiration && this.tokenExpiration < Date.now() - 1_000`.
An unset `tokenExpiration` is falsy, as is the value `0` (JS
truthiness), so those report "not expired". -/
def tokenIsExpired (s : TokenState) (now : Int) : Bool :=
  match s.tokenExpiration with
  | none => false
  | some e => if e = 0 then false else decide (e < now - 1000)

/-- `setToken(token)`: store the token; parse the JWT payload and, when
its `exp` claim is a number, set `tokenExpiration = exp * 1000`
(seconds to milliseconds); on a parse failure `tokenExpiration` is left
unchanged.  `expSec` is the parsed claim. -/
def setToken (s : TokenState) (t : String) (expSec : Option Int) : TokenState :=
  { s with
    latestToken := some t
    tokenExpiration :=
      match expSec with
      | some e => some (e * 1000)
      | none => s.tokenExpiration }

/-- What a `token()` call hands back synchronously: either an already
resolved promise for the cached token, or (a reference to) the
in-flight refresh promise. -/
inductive TokenCallResult where
  | cached (t : String)
  | promise (pid : Nat)
deriving DecidableEq, Repr

/-- The tail of `token()` when no usable cached token exists: reuse
`inProgressTokenPromise` if set, otherwise start `refreshToken()` and
store the chained promise in the slot. -/
def tokenAcquire (s : TokenState) : TokenCallResult × TokenState :=
  match s.inProgress with
  | some pid => (.promise pid, s)
  | none =>
    (.promise s.nextPromiseId,
     { s with
       inProgress := some s.nextPromiseId
       nextPromiseId := s.nextPromiseId + 1
       refreshCount := s.refreshCount + 1 })

/-- `token()` as one synchronous step of the event loop: if
`latestToken` is set and not expired, resolve with it; if set but
expired, clear `latestToken` (note: not `tokenExpiration`) and continue
as without a token; otherwise `tokenAcquire`. -/
def tokenCall (s : TokenState) (now : Int) : TokenCallResult × TokenState :=
  match s.latestToken with
  | some t =>
    if ¬ s.tokenIsExpired now then (.cached t, s)
    else tokenAcquire { s with latestToken := none }
  | none => tokenAcquire s

/-! The errors of `src/errors.ts` that can surface from a refresh, and
`refreshToken()` over the token configuration.  User-supplied callbacks
and the HTTP token exchange are external, so their outcomes are
parameters of the embedding. -/

inductive JsError where
  | unauthorized (msg : String) (cause : Option JsError)
  | apiError (msg : String) (status : Nat)
  | raw (msg : String)

/-- Is the error an `errors.UnauthorizedError` (the library's
authorization error)? -/
def isAuthorizationError : JsError → Bool
  | .unauthorized _ _ => true
  | _ => false

/-- The accepted shapes of the `tokenConfig` constructor argument. -/
inductive TokenConfig where
  | tokenString (t : String)
  | tokenFn
  | tokenPropString (t : String)
  | tokenPropFn
  | idpConfig (idpIsString : Bool)
  | invalid
deriving DecidableEq, Repr

/-- `refreshToken()`: a plain token string resolves directly; a token
callback (legacy function form or the `token` property) has its failure
wrapped in `new errors.UnauthorizedError("failed to retrieve token",
undefined, err)`; an `identityProviderToken` config awaits the callback
(when it is a function) WITHOUT wrapping its failure and then performs
the token exchange; anything else throws
`new errors.UnauthorizedError("invalid token configuration")`. -/
def refreshTokenOutcome (cfg : TokenConfig)
    (cbResult : Except JsError String)
    (idpCbResult : Except JsError String)
    (exchangeResult : Except JsError String) : Except JsError String :=
  match cfg with
  | .tokenString t => .ok t
  | .tokenFn =>
    match cbResult with
    | .ok t => .ok t
    | .error e => .error (.unauthorized "failed to retrieve token" (some e))
  | .tokenPropString t => .ok t
  | .tokenPropFn =>
    match cbResult with
    | .ok t => .ok t
    | .error e => .error (.unauthorized "failed to retrieve token" (some e))
  | .idpConfig idpIsString =>
    if idpIsString then exchangeResult
    else
      match idpCbResult with
      | .ok _ => exchangeResult
      | .error e => .error e
  | .invalid => .error (.unauthorized "invalid token configuration" none)

/-- Settlement of the in-flight refresh promise, i.e. the `.then` /
`.catch` continuations installed by `token()`: on success `setToken`
and clear the slot, returning the token to every awaiting caller; on
failure clear the slot and rethrow the same error to every awaiting
caller (the cached credential is not touched). -/
def settleRefresh (s : TokenState) (outcome : Except JsError String)
    (expSec : Option Int) : Except JsError String × TokenState :=
  match outcome with
  | .ok t => (.ok t, { s.setToken t expSec with inProgress := none })
  | .error e => (.error e, { s with inProgress := none })

end TokenState

/-! ## The message handler of machineInstances.subscribe

For a subscription to `(machineName, machineInstanceName)` with the
random correlation id `requestId`, the handler switches on the frame
type: an `error` frame calls `onError` exactly when its `requestId`
matches; an `instance-update` frame calls `onStateUpdate` exactly when
both names match; every other frame does nothing.  `U` is the type of
update payloads (`state`, `publicContext`, `done`, `tags`) and `E` that
of adapted errors (`adaptError(msg.status, msg.code, ...)`). -/

inductive WSClientMsg (U E : Type) where
  | errorFrame (requestId : String) (err : E)
  | instanceUpdate (machineName machineInstanceName : String) (upd : U)
  | otherFrame
deriving DecidableEq, Repr

inductive SubAction (U E : Type) where
  | callOnError (err : E)
  | callOnUpdate (upd : U)
  | noCall
deriving DecidableEq, Repr

/-- The listener closure installed by `machineInstances.subscribe`. -/
def subscribeHandler {U E : Type} (machineName machineInstanceName requestId : String) :
    WSClientMsg U E → SubAction U E
  | .errorFrame rid err =>
    if rid ≠ requestId then .noCall else .callOnError err
  | .instanceUpdate mn min upd =>
    if mn ≠ machineName ∨ min ≠ machineInstanceName then .noCall
    else .callOnUpdate upd
  | .otherFrame => .noCall

/-! ## The unsubscribe closure returned by machineInstances.subscribe

After the subscription is established (`cancelSubscription` and
`wsUnsubscribe` are set), one call runs: cancel the persistent
`subscribe-to-instance` message, `this.ws?.send` an
`unsubscribe-from-instance` frame, and remove the listener from the
transport.  (`isUnsubscribed = true` and removing the abort listener
have no effect on the transport state modelled here.) -/

def unsubscribeCall {Out L : Type} [DecidableEq Out] [DecidableEq L]
    (subMsg unsubMsg : Out) (handler : L) (s : Transport Out L) : Transport Out L :=
  (((s.cancelPersistent subMsg).send unsubMsg).removeListener handler)

/-! ## Validation of the matchesState embedding

The fourteen assertions of `matches-state.test.ts`, re-checked against
the embedding. -/

theorem matchesState_test_examples :
    (matchesState (some (.val (.str "a"))) (some (.str "a")) = true) ∧
    (matchesState (some (.val (.str "a.b"))) (some (.str "a.b")) = true) ∧
    (matchesState (some (.val (.str "a.b"))) (some (.obj [("a", .str "b")])) = true) ∧
    (matchesState (some (.val (.str "a"))) (some (.obj [("a", .str "b")])) = true) ∧
    (matchesState (some (.path ["a", "b"])) (some (.obj [("a", .str "b")])) = true) ∧
    (matchesState (some (.val (.obj [("a", .str "b")]))) (some (.obj [("a", .str "b")])) = true) ∧
    (matchesState (some (.val (.obj [("a", .str "b")])))
      (some (.obj [("a", .obj [("b", .str "c")])])) = true) ∧
    (matchesState (some (.val (.str "a"))) (some (.str "b")) = false) ∧
    (matchesState (some (.val (.str "a.b"))) (some (.str "a.c")) = false) ∧
    (matchesState (some (.val (.str "a.b"))) (some (.obj [("a", .str "c")])) = false) ∧
    (matchesState (some (.val (.str "a"))) (some (.obj [("c", .str "b")])) = false) ∧
    (matchesState (some (.path ["a", "b"])) (some (.obj [("a", .str "c")])) = false) ∧
    (matchesState (some (.val (.obj [("a", .str "b")]))) (some (.obj [("a", .str "c")])) = false) ∧
    (matchesState (some (.val (.obj [("a", .str "b")])))
      (some (.obj [("a", .obj [("c", .str "c")])])) = false) := by
  refine ⟨?_, ?_, ?_, ?_, ?_, ?_, ?_, ?_, ?_, ?_, ?_, ?_, ?_, ?_⟩ <;>
    simp [matchesState, toStateValue, splitDots, splitDotsAux, pathToStateValue,
      msCore, msFields, svHasKey, svLookup]

/-! ## Claim C4 -/

/-- Claim C4, counterexample.  The claim states
`matches("a", undefined) = false` and `matches(undefined, "a") = true`;
the code returns exactly the opposite in both cases: a defined
descriptor matches an undefined state value, and an undefined
descriptor does not match the defined state value `"a"`. -/
theorem matchesState_undefined_cex :
    matchesState (some (.val (.str "a"))) none = true ∧
    matchesState none (some (.str "a")) = false := ⟨rfl, rfl⟩

/-- Claim C4, amended: a defined descriptor always matches an undefined
state value; an undefined descriptor matches only an undefined state
value (so it does not match any defined one, and does match an
undefined one). -/
theorem matchesState_undefined_amended (d : StateDescr) (c : SV) :
    matchesState (some d) none = true ∧
    matchesState none (some c) = false ∧
    matchesState none none = true := ⟨rfl, rfl, rfl⟩

/-! ## Claim C1 -/

/-- Claim C1, evaluation at the failing input.  A listener is added to
a fresh transport, which creates socket number one (`state` becomes
`"connecting"`); the socket then closes without ever having opened.
The `onclose` handler calls `connect()`, but `connect()` early-returns
because `state` is still `"connecting"`, so no new socket is
constructed: `connectCount` stays `1`, no socket is alive, and the
transport is wedged in `"connecting"` — contradicting the claim that
every close of a non-voluntarily-closed transport immediately starts a
new connection attempt.  For contrast, the last conjunct shows that a
socket that did open does get a reconnection attempt on close. -/
theorem reconnect_drops_never_opened_socket :
    (((Transport.init : Transport Nat Nat).addListener 0).connState = .connecting ∧
      ((Transport.init : Transport Nat Nat).addListener 0).connectCount = 1) ∧
    ((((Transport.init : Transport Nat Nat).addListener 0).sockClose).connectCount = 1 ∧
      (((Transport.init : Transport Nat Nat).addListener 0).sockClose).sockAlive = false ∧
      (((Transport.init : Transport Nat Nat).addListener 0).sockClose).connState = .connecting) ∧
    ((((Transport.init : Transport Nat Nat).addListener 0).sockOpen.sockClose).connectCount = 2) := by
  decide

/-! ## Claim C2 -/

/-- Claim C2, counterexample.  `persistentSend` pushes the message onto
`persistentMsgs` and then calls `send`, which — the socket not being
open — also pushes it onto `msgQueue`.  The flush on the next open
writes `persistentMsgs.concat(msgQueue)`, so the message goes out
twice, refuting "a message passed to persistentSend while the socket
was not open is transmitted only once on the next open". -/
theorem persistentSend_double_flush_cex :
    ((((Transport.init : Transport Nat Nat).addListener 0).persistentSend 42).sockOpen).sent
      = [42, 42] ∧
    (((((Transport.init : Transport Nat Nat).addListener 0).persistentSend 42).sockOpen).sent.count 42) = 2 := by
  decide

/-- Claim C2, amended: on socket open the transport writes exactly the
persistent messages followed by the queued messages, in FIFO order
within each group, and empties the ad-hoc queue — but per-open
uniqueness holds per list entry, not per message: a message passed to
`persistentSend` while the socket was not open sits in both lists and
is therefore transmitted twice on the next open. -/
theorem sockOpen_flush_order (s : Transport Out L) [DecidableEq Out] (m : Out)
    (h : s.wsAttached = false) :
    (((s.persistentSend m).sockOpen).sent
        = s.sent ++ ((s.persistentMsgs ++ [m]) ++ (s.msgQueue ++ [m]))) ∧
    (((s.persistentSend m).sockOpen).msgQueue = []) ∧
    (((s.persistentSend m).sockOpen).sent.count m
        = s.sent.count m + s.persistentMsgs.count m + s.msgQueue.count m + 2) ∧
    ((s.sockOpen).sent = s.sent ++ (s.persistentMsgs ++ s.msgQueue) ∧
      (s.sockOpen).msgQueue = []) := by
  refine ⟨?_, ?_, ?_, ?_, ?_⟩ <;>
    simp [Transport.persistentSend, Transport.send, Transport.sockOpen, h,
      List.count_append, List.count_cons]
  omega

/-- Claim C2, witness for the amended theorem. -/
theorem sockOpen_flush_order_witness :
    ((((Transport.init : Transport Nat Nat).persistentSend 9).sockOpen).sent
        = [] ++ (([] ++ [9]) ++ ([] ++ [9]))) ∧
    ((((Transport.init : Transport Nat Nat).persistentSend 9).sockOpen).msgQueue = []) ∧
    ((((Transport.init : Transport Nat Nat).persistentSend 9).sockOpen).sent.count 9
        = List.count 9 [] + List.count 9 [] + List.count 9 [] + 2) ∧
    (((Transport.init : Transport Nat Nat).sockOpen).sent = [] ++ ([] ++ []) ∧
      ((Transport.init : Transport Nat Nat).sockOpen).msgQueue = []) :=
  sockOpen_flush_order (Transport.init : Transport Nat Nat) 9 rfl

/-! ## Claim C3 -/

/-- Claim C3: with no cached credential and no refresh in flight, the
first `token()` call starts exactly one underlying acquisition and
stores its promise; a second call in the same window performs no state
change and returns the same promise, so both callers resolve to the
same token value. -/
theorem token_single_inflight (s : TokenState) (now : Int)
    (h1 : s.latestToken = none) (h2 : s.inProgress = none) :
    ((s.tokenCall now).1 = .promise s.nextPromiseId) ∧
    ((s.tokenCall now).2.refreshCount = s.refreshCount + 1) ∧
    ((s.tokenCall now).2.inProgress = some s.nextPromiseId) ∧
    (((s.tokenCall now).2.tokenCall now).1 = (s.tokenCall now).1) ∧
    (((s.tokenCall now).2.tokenCall now).2 = (s.tokenCall now).2) := by
  simp [TokenState.tokenCall, TokenState.tokenAcquire, h1, h2]

/-- Claim C3, witness. -/
theorem token_single_inflight_witness :
    (((⟨none, none, none, 0, 0⟩ : TokenState).tokenCall 0).1 = .promise 0) ∧
    (((⟨none, none, none, 0, 0⟩ : TokenState).tokenCall 0).2.refreshCount = 0 + 1) ∧
    (((⟨none, none, none, 0, 0⟩ : TokenState).tokenCall 0).2.inProgress = some 0) ∧
    ((((⟨none, none, none, 0, 0⟩ : TokenState).tokenCall 0).2.tokenCall 0).1
        = ((⟨none, none, none, 0, 0⟩ : TokenState).tokenCall 0).1) ∧
    ((((⟨none, none, none, 0, 0⟩ : TokenState).tokenCall 0).2.tokenCall 0).2
        = ((⟨none, none, none, 0, 0⟩ : TokenState).tokenCall 0).2) :=
  token_single_inflight ⟨none, none, none, 0, 0⟩ 0 rfl rfl

/-! ## Claim C5 -/

/-- Claim C5, evaluation at the failing input.  The claim (and the
spec) require a positive skew `s` with the cached credential treated as
expired at every `t ≥ E - s`.  The code tests
`tokenExpiration < Date.now() - 1_000`, i.e. the skew points the other
way: with `E = 1000000`, at `t = E` — and even at `t = E + 999` — the
token is still treated as fresh and `token()` returns the cached
credential without starting a refresh; expiry is only recognised from
`t = E + 1001` on. -/
theorem tokenExpiry_skew_failing_input :
    ((⟨some "tok", some 1000000, none, 5, 7⟩ : TokenState).tokenIsExpired 1000000 = false) ∧
    ((⟨some "tok", some 1000000, none, 5, 7⟩ : TokenState).tokenIsExpired 1000999 = false) ∧
    (((⟨some "tok", some 1000000, none, 5, 7⟩ : TokenState).tokenCall 1000000).1
        = .cached "tok") ∧
    (((⟨some "tok", some 1000000, none, 5, 7⟩ : TokenState).tokenCall 1000000).2
        = ⟨some "tok", some 1000000, none, 5, 7⟩) ∧
    ((⟨some "tok", some 1000000, none, 5, 7⟩ : TokenState).tokenIsExpired 1001001 = true) := by
  decide

/-! ## Claim C6 -/

theorem filter_pred_idem {α : Type} (p : α → Bool) (l : List α) :
    (l.filter p).filter p = l.filter p := by
  induction l with
  | nil => rfl
  | cons a rest ih =>
    by_cases h : p a <;> simp [List.filter_cons, h, ih]

/-- Shape of one unsubscribe call: persistent cancel filters
`persistentMsgs`; the `unsubscribe-from-instance` frame goes to the
wire or the queue depending on attachment; the handler is filtered out
and, when no listener remains, `close()` runs. -/
theorem unsubscribeCall_eq {Out L : Type} [DecidableEq Out] [DecidableEq L]
    (subMsg unsubMsg : Out) (handler : L) (s : Transport Out L) :
    unsubscribeCall subMsg unsubMsg handler s =
      { connState :=
          if s.listeners.filter (fun l2 => l2 ≠ handler) = [] then .closed else s.connState
        wsAttached :=
          if s.listeners.filter (fun l2 => l2 ≠ handler) = [] then false else s.wsAttached
        sockAlive := s.sockAlive
        sockOpened := s.sockOpened
        listeners := s.listeners.filter (fun l2 => l2 ≠ handler)
        msgQueue := if s.wsAttached then s.msgQueue else s.msgQueue ++ [unsubMsg]
        persistentMsgs := s.persistentMsgs.filter (fun m2 => m2 ≠ subMsg)
        sent := if s.wsAttached then s.sent ++ [unsubMsg] else s.sent
        connectCount := s.connectCount } := by
  simp only [unsubscribeCall, Transport.cancelPersistent, Transport.send,
    Transport.removeListener, Transport.close]
  by_cases hw : s.wsAttached <;> by_cases hf : ∀ a ∈ s.listeners, a = handler
  · simp [hw, if_pos hf, decide_eq_true hf]
  · simp [hw, if_neg hf, decide_eq_false hf]
  · simp [hw, if_pos hf, decide_eq_true hf]
  · simp [hw, if_neg hf, decide_eq_false hf]

/-- Claim C6, counterexample.  Two listeners share the transport; the
subscribe message `10` was flushed (twice, see C2) on open.  The first
unsubscribe call sends the `unsubscribe-from-instance` frame `20`; the
second call sends a second such frame on the wire, so the observable
effect of two calls differs from that of one call, refuting "no second
unsubscribe-from-instance frame is sent relative to the first". -/
theorem unsubscribe_second_frame_cex :
    (unsubscribeCall 10 20 0
        (((((Transport.init : Transport Nat Nat).addListener 0).addListener 1).persistentSend 10).sockOpen)).sent
      = [10, 10, 20] ∧
    (unsubscribeCall 10 20 0 (unsubscribeCall 10 20 0
        (((((Transport.init : Transport Nat Nat).addListener 0).addListener 1).persistentSend 10).sockOpen))).sent
      = [10, 10, 20, 20] := by
  decide

/-- Claim C6, amended: the second unsubscribe call does not throw, and
cancelling the persistent subscribe message and removing the local
handler are idempotent — listener list, persistent set, connection
state and socket attachment are exactly as after a single call — but
each call emits one more `unsubscribe-from-instance` frame: written to
the wire when the transport is still attached, and enqueued on
`msgQueue` (to be flushed on a future open) when it is not. -/
theorem unsubscribe_second_call {Out L : Type} [DecidableEq Out] [DecidableEq L]
    (subMsg unsubMsg : Out) (handler : L) (s : Transport Out L) :
    ((unsubscribeCall subMsg unsubMsg handler (unsubscribeCall subMsg unsubMsg handler s)).listeners
        = (unsubscribeCall subMsg unsubMsg handler s).listeners) ∧
    ((unsubscribeCall subMsg unsubMsg handler (unsubscribeCall subMsg unsubMsg handler s)).persistentMsgs
        = (unsubscribeCall subMsg unsubMsg handler s).persistentMsgs) ∧
    ((unsubscribeCall subMsg unsubMsg handler (unsubscribeCall subMsg unsubMsg handler s)).connState
        = (unsubscribeCall subMsg unsubMsg handler s).connState) ∧
    ((unsubscribeCall subMsg unsubMsg handler (unsubscribeCall subMsg unsubMsg handler s)).wsAttached
        = (unsubscribeCall subMsg unsubMsg handler s).wsAttached) ∧
    (if (unsubscribeCall subMsg unsubMsg handler s).wsAttached then
        (unsubscribeCall subMsg unsubMsg handler (unsubscribeCall subMsg unsubMsg handler s)).sent
            = (unsubscribeCall subMsg unsubMsg handler s).sent ++ [unsubMsg] ∧
        (unsubscribeCall subMsg unsubMsg handler (unsubscribeCall subMsg unsubMsg handler s)).msgQueue
            = (unsubscribeCall subMsg unsubMsg handler s).msgQueue
      else
        (unsubscribeCall subMsg unsubMsg handler (unsubscribeCall subMsg unsubMsg handler s)).sent
            = (unsubscribeCall subMsg unsubMsg handler s).sent ∧
        (unsubscribeCall subMsg unsubMsg handler (unsubscribeCall subMsg unsubMsg handler s)).msgQueue
            = (unsubscribeCall subMsg unsubMsg handler s).msgQueue ++ [unsubMsg]) := by
  simp only [unsubscribeCall_eq, filter_pred_idem]
  by_cases hw : s.wsAttached <;>
    by_cases hf : s.listeners.filter (fun l2 => l2 ≠ handler) = [] <;>
      simp [hw, hf, filter_pred_idem] <;>
        exact fun h => (if_pos h).symm

/-- Claim C6, witness for the amended theorem (transport already
closed by the first call: the second frame is enqueued). -/
theorem unsubscribe_second_call_witness :
    ((unsubscribeCall 10 20 0 (unsubscribeCall 10 20 0
        ((((Transport.init : Transport Nat Nat).addListener 0).persistentSend 10).sockOpen))).listeners
      = (unsubscribeCall 10 20 0
        ((((Transport.init : Transport Nat Nat).addListener 0).persistentSend 10).sockOpen)).listeners) ∧
    ((unsubscribeCall 10 20 0 (unsubscribeCall 10 20 0
        ((((Transport.init : Transport Nat Nat).addListener 0).persistentSend 10).sockOpen))).persistentMsgs
      = (unsubscribeCall 10 20 0
        ((((Transport.init : Transport Nat Nat).addListener 0).persistentSend 10).sockOpen)).persistentMsgs) ∧
    ((unsubscribeCall 10 20 0 (unsubscribeCall 10 20 0
        ((((Transport.init : Transport Nat Nat).addListener 0).persistentSend 10).sockOpen))).connState
      = (unsubscribeCall 10 20 0
        ((((Transport.init : Transport Nat Nat).addListener 0).persistentSend 10).sockOpen)).connState) ∧
    ((unsubscribeCall 10 20 0 (unsubscribeCall 10 20 0
        ((((Transport.init : Transport Nat Nat).addListener 0).persistentSend 10).sockOpen))).wsAttached
      = (unsubscribeCall 10 20 0
        ((((Transport.init : Transport Nat Nat).addListener 0).persistentSend 10).sockOpen)).wsAttached) ∧
    (if (unsubscribeCall 10 20 0
          ((((Transport.init : Transport Nat Nat).addListener 0).persistentSend 10).sockOpen)).wsAttached then
        (unsubscribeCall 10 20 0 (unsubscribeCall 10 20 0
            ((((Transport.init : Transport Nat Nat).addListener 0).persistentSend 10).sockOpen))).sent
          = (unsubscribeCall 10 20 0
            ((((Transport.init : Transport Nat Nat).addListener 0).persistentSend 10).sockOpen)).sent ++ [20] ∧
        (unsubscribeCall 10 20 0 (unsubscribeCall 10 20 0
            ((((Transport.init : Transport Nat Nat).addListener 0).persistentSend 10).sockOpen))).msgQueue
          = (unsubscribeCall 10 20 0
            ((((Transport.init : Transport Nat Nat).addListener 0).persistentSend 10).sockOpen)).msgQueue
      else
        (unsubscribeCall 10 20 0 (unsubscribeCall 10 20 0
            ((((Transport.init : Transport Nat Nat).addListener 0).persistentSend 10).sockOpen))).sent
          = (unsubscribeCall 10 20 0
            ((((Transport.init : Transport Nat Nat).addListener 0).persistentSend 10).sockOpen)).sent ∧
        (unsubscribeCall 10 20 0 (unsubscribeCall 10 20 0
            ((((Transport.init : Transport Nat Nat).addListener 0).persistentSend 10).sockOpen))).msgQueue
          = (unsubscribeCall 10 20 0
            ((((Transport.init : Transport Nat Nat).addListener 0).persistentSend 10).sockOpen)).msgQueue ++ [20]) :=
  unsubscribe_second_call 10 20 0
    ((((Transport.init : Transport Nat Nat).addListener 0).persistentSend 10).sockOpen)

/-! ## Claim C7 -/

/-- Claim C7: complete routing characterisation of the per-subscription
message handler.  An `instance-update` frame calls `onStateUpdate`
exactly when both names match the subscription's (and never calls
`onError`); an `error` frame calls `onError` exactly when its
`requestId` matches the subscription's correlation id (and never calls
`onStateUpdate`); any other frame calls neither. -/
theorem subscribeHandler_routing {U E : Type} (a b r mn min rid : String) (u : U) (e : E) :
    (subscribeHandler a b r (.instanceUpdate mn min u : WSClientMsg U E)
        = (if mn = a ∧ min = b then .callOnUpdate u else .noCall)) ∧
    (subscribeHandler a b r (.errorFrame rid e : WSClientMsg U E)
        = (if rid = r then .callOnError e else .noCall)) ∧
    (subscribeHandler a b r (.otherFrame : WSClientMsg U E) = .noCall) := by
  refine ⟨?_, ?_, rfl⟩
  · by_cases h1 : mn = a <;> by_cases h2 : min = b <;>
      simp [subscribeHandler, h1, h2]
  · by_cases h : rid = r <;> simp [subscribeHandler, h]

/-- Claim C7, witness: a matching and a non-matching frame of each
kind, evaluated concretely. -/
theorem subscribeHandler_routing_witness :
    (subscribeHandler "m" "i" "r" (.instanceUpdate "m" "i" 3 : WSClientMsg Nat Nat)
        = (if "m" = "m" ∧ "i" = "i" then .callOnUpdate 3 else .noCall)) ∧
    (subscribeHandler "m" "i" "r" (.errorFrame "other" 7 : WSClientMsg Nat Nat)
        = (if "other" = "r" then .callOnError 7 else .noCall)) ∧
    (subscribeHandler "m" "i" "r" (.otherFrame : WSClientMsg Nat Nat) = .noCall) :=
  ⟨(subscribeHandler_routing "m" "i" "r" "m" "i" "other" (3 : Nat) (7 : Nat)).1,
   (subscribeHandler_routing "m" "i" "r" "x" "i" "other" (3 : Nat) (7 : Nat)).2.1,
   (subscribeHandler_routing "m" "i" "r" "x" "i" "other" (3 : Nat) (7 : Nat)).2.2⟩

/-! ## Claim C8 -/

/-- Claim C8, counterexample.  With an `identityProviderToken` callback
configuration whose callback rejects with a generic error, the error is
not wrapped: every caller awaiting the refresh receives the raw error,
which is not an authorization error — refuting "every caller awaiting
that refresh receives an authorization error". -/
theorem refresh_failure_error_kind_cex :
    (TokenState.refreshTokenOutcome (.idpConfig false) (.ok "unused")
        (.error (.raw "network failure")) (.ok "unused")
      = .error (.raw "network failure")) ∧
    ((TokenState.settleRefresh (⟨none, none, some 3, 4, 1⟩ : TokenState)
        (.error (.raw "network failure")) none).1
      = .error (.raw "network failure")) ∧
    (TokenState.isAuthorizationError (.raw "network failure") = false) :=
  ⟨rfl, rfl, rfl⟩

/-- Claim C8, amended: when the refresh fails, every caller awaiting
the in-flight promise receives the same error — wrapped as an
authorization error when a configured token callback rejected, but
passed through unwrapped when an `identityProviderToken` callback
rejected — the cached credential stays unset, the in-flight slot is
cleared, and the next `token()` call starts a fresh refresh from
scratch. -/
theorem refresh_failure_not_cached (s : TokenState) (e : TokenState.JsError) (now : Int)
    (idpR exR : Except TokenState.JsError String) (h1 : s.latestToken = none) :
    ((TokenState.settleRefresh s (.error e) none).1 = .error e) ∧
    ((TokenState.settleRefresh s (.error e) none).2.latestToken = none) ∧
    ((TokenState.settleRefresh s (.error e) none).2.inProgress = none) ∧
    (((TokenState.settleRefresh s (.error e) none).2.tokenCall now).1
        = .promise (TokenState.settleRefresh s (.error e) none).2.nextPromiseId) ∧
    (((TokenState.settleRefresh s (.error e) none).2.tokenCall now).2.refreshCount
        = s.refreshCount + 1) ∧
    (TokenState.refreshTokenOutcome .tokenFn (.error e) idpR exR
        = .error (.unauthorized "failed to retrieve token" (some e))) ∧
    (TokenState.refreshTokenOutcome .tokenPropFn (.error e) idpR exR
        = .error (.unauthorized "failed to retrieve token" (some e))) ∧
    (TokenState.isAuthorizationError (.unauthorized "failed to retrieve token" (some e))
        = true) := by
  simp [TokenState.settleRefresh, TokenState.tokenCall, TokenState.tokenAcquire,
    TokenState.refreshTokenOutcome, TokenState.isAuthorizationError, h1]

/-- Claim C8, witness for the amended theorem. -/
theorem refresh_failure_not_cached_witness :
    ((TokenState.settleRefresh (⟨none, none, some 3, 4, 1⟩ : TokenState)
        (.error (.raw "boom")) none).1 = .error (.raw "boom")) ∧
    ((TokenState.settleRefresh (⟨none, none, some 3, 4, 1⟩ : TokenState)
        (.error (.raw "boom")) none).2.latestToken = none) ∧
    ((TokenState.settleRefresh (⟨none, none, some 3, 4, 1⟩ : TokenState)
        (.error (.raw "boom")) none).2.inProgress = none) ∧
    (((TokenState.settleRefresh (⟨none, none, some 3, 4, 1⟩ : TokenState)
        (.error (.raw "boom")) none).2.tokenCall 0).1
      = .promise (TokenState.settleRefresh (⟨none, none, some 3, 4, 1⟩ : TokenState)
        (.error (.raw "boom")) none).2.nextPromiseId) ∧
    (((TokenState.settleRefresh (⟨none, none, some 3, 4, 1⟩ : TokenState)
        (.error (.raw "boom")) none).2.tokenCall 0).2.refreshCount = 1 + 1) ∧
    (TokenState.refreshTokenOutcome .tokenFn (.error (.raw "boom")) (.ok "a") (.ok "b")
        = .error (.unauthorized "failed to retrieve token" (some (.raw "boom")))) ∧
    (TokenState.refreshTokenOutcome .tokenPropFn (.error (.raw "boom")) (.ok "a") (.ok "b")
        = .error (.unauthorized "failed to retrieve token" (some (.raw "boom")))) ∧
    (TokenState.isAuthorizationError
        (.unauthorized "failed to retrieve token" (some (.raw "boom"))) = true) :=
  refresh_failure_not_cached ⟨none, none, some 3, 4, 1⟩ (.raw "boom") 0 (.ok "a") (.ok "b") rfl

/-! ## Claim C9 -/

/-- Claim C9, counterexample.  A message queued while the socket was
still connecting stays in `msgQueue` after the `removeListener` call
that empties the listener set: `close()` clears the socket reference
and sets the state to `"closed"` but does not empty the queues,
refuting "both the outbound message queue and the persistent message
set are empty". -/
theorem removeListener_keeps_queue_cex :
    ((((Transport.init : Transport Nat Nat).addListener 0).send 5).removeListener 0).listeners = [] ∧
    ((((Transport.init : Transport Nat Nat).addListener 0).send 5).removeListener 0).connState = .closed ∧
    ((((Transport.init : Transport Nat Nat).addListener 0).send 5).removeListener 0).wsAttached = false ∧
    ((((Transport.init : Transport Nat Nat).addListener 0).send 5).removeListener 0).msgQueue = [5] := by
  decide

/-- Claim C9, amended: when a `removeListener` call leaves the listener
set empty the connection is closed and the socket reference cleared,
but the outbound message queue and the persistent message set are NOT
released — they keep exactly their previous contents. -/
theorem removeListener_empty_closes {Out L : Type} [DecidableEq L]
    (s : Transport Out L) (l : L)
    (h : (s.removeListener l).listeners = []) :
    ((s.removeListener l).connState = .closed) ∧
    ((s.removeListener l).wsAttached = false) ∧
    ((s.removeListener l).msgQueue = s.msgQueue) ∧
    ((s.removeListener l).persistentMsgs = s.persistentMsgs) ∧
    ((s.removeListener l).sent = s.sent) := by
  by_cases hf : s.listeners.filter (fun l2 => l2 ≠ l) = []
  · simp only [Transport.removeListener, Transport.close, if_pos hf]
    simp
  · exfalso
    apply hf
    simpa only [Transport.removeListener, Transport.close, if_neg hf] using h

/-- Claim C9, witness for the amended theorem. -/
theorem removeListener_empty_closes_witness :
    (((((Transport.init : Transport Nat Nat).addListener 0).send 5).removeListener 0).connState = .closed) ∧
    (((((Transport.init : Transport Nat Nat).addListener 0).send 5).removeListener 0).wsAttached = false) ∧
    (((((Transport.init : Transport Nat Nat).addListener 0).send 5).removeListener 0).msgQueue
        = (((Transport.init : Transport Nat Nat).addListener 0).send 5).msgQueue) ∧
    (((((Transport.init : Transport Nat Nat).addListener 0).send 5).removeListener 0).persistentMsgs
        = (((Transport.init : Transport Nat Nat).addListener 0).send 5).persistentMsgs) ∧
    (((((Transport.init : Transport Nat Nat).addListener 0).send 5).removeListener 0).sent
        = (((Transport.init : Transport Nat Nat).addListener 0).send 5).sent) :=
  removeListener_empty_closes (((Transport.init : Transport Nat Nat).addListener 0).send 5) 0
    (by decide)

/-! ## Claim C10 -/

theorem deliverFrom_prefix {In L : Type} (act : L → In → Bool) (m : In)
    (pre : List L) (t : L) (post : List L)
    (hpre : ∀ l ∈ pre, act l m = true) (ht : act t m = false) :
    Transport.deliverFrom act m (pre ++ t :: post) = pre ++ [t] := by
  induction pre with
  | nil => simp [Transport.deliverFrom, ht]
  | cons a rest ih =>
    have ha : act a m = true := hpre a (List.mem_cons_self a rest)
    have ih2 := ih (fun l hl => hpre l (List.mem_cons_of_mem a hl))
    simp [Transport.deliverFrom, ha, ih2]

/-- Claim C10: when a frame is dispatched and some listener throws, the
exception is swallowed (the handler completes and the transport state,
in particular its connection, is unchanged) and delivery stops at the
first throwing listener: the listeners registered after it do not
receive the frame. -/
theorem listener_throw_stops_delivery {In Out L : Type}
    (s : Transport Out L) (act : L → In → Bool) (m : In)
    (pre : List L) (t : L) (post : List L)
    (hl : s.listeners = pre ++ t :: post)
    (hpre : ∀ l ∈ pre, act l m = true) (ht : act t m = false) :
    ((s.sockMsg act (some m)).1 = s) ∧
    ((s.sockMsg act (some m)).2 = pre ++ [t]) := by
  refine ⟨rfl, ?_⟩
  simp only [Transport.sockMsg, hl]
  exact deliverFrom_prefix act m pre t post hpre ht

/-- Claim C10, witness: three listeners, the second of which throws on
frame `7`; only the first two receive the frame and the transport is
unchanged. -/
theorem listener_throw_stops_delivery_witness :
    (((((Transport.init : Transport Nat Nat).addListener 0).addListener 1).addListener 2).sockMsg
        (fun l _ => decide (l = 0)) (some 7)).1
      = ((((Transport.init : Transport Nat Nat).addListener 0).addListener 1).addListener 2) ∧
    (((((Transport.init : Transport Nat Nat).addListener 0).addListener 1).addListener 2).sockMsg
        (fun l _ => decide (l = 0)) (some 7)).2
      = [0] ++ [1] :=
  listener_throw_stops_delivery
    ((((Transport.init : Transport Nat Nat).addListener 0).addListener 1).addListener 2)
    (fun l _ => decide (l = 0)) 7 [0] 1 [2] (by decide) (by decide) (by decide)

end StateBacked
